import Mathlib

/-!
# Verification of the rokie cookie-database browser

Shallow embedding of the core logic of the `rokie` repository:
the cookie-database format detector (`cookie_db_type`, two versions:
`src/funcs.rs` and `src/util.rs`), the cookie loader
(`CookieDB::load_cookies`, `CookieDB::get_unix_epoch` in
`src/cookie_db.rs`) and the TUI navigation/search state machine
(`src/tui.rs`).

File and database I/O is modelled by explicit environments describing
the outcome of each fallible primitive; everything else is translated
directly from the Rust source.
-/

namespace Rokie

/-- `DbType` enum from `src/util.rs` (also `crate::types` in `src/funcs.rs`). -/
inductive DbType where
  | Chrome
  | Firefox
  | Unknown
deriving DecidableEq, Repr

/-- A normalized cookie record (`Cookie` struct, `crate::types`), as
constructed by `CookieDB::load_cookies` in `src/cookie_db.rs`. -/
structure Cookie where
  host : String
  name : String
  value : String
  path : String
  creation : Int
  expiry : Int
  last_access : Int
  http_only : Bool
  secure : Bool
  samesite : Int
deriving DecidableEq, Repr

/-- `CookieDB` struct (`crate::types`): one discovered database. -/
structure CookieDB where
  path : String
  typing : DbType
  cookies : List Cookie
deriving DecidableEq, Repr

/-- `CookieDB::table_name` from `src/cookie_db.rs`. -/
def CookieDB.table_name (self : CookieDB) : String :=
  if self.typing = DbType.Firefox then "moz_cookies" else "cookies"

/-- `CookieDB::get_unix_epoch` from `src/cookie_db.rs`.

Rust `i64` division truncates toward zero, which is `Int.tdiv`. -/
def CookieDB.get_unix_epoch (self : CookieDB) (timestamp : Int) : Int :=
  if timestamp = 0 then
    0
  else if self.typing = DbType.Firefox then
    timestamp.tdiv 1000000
  else
    timestamp.tdiv 1000000 - 11644473600

/-! ## Cookie loader (`CookieDB::load_cookies`, `src/cookie_db.rs`)

The SQLite connection is modelled by an environment giving the outcome
of `rusqlite::Connection::open`, `conn.prepare` and `stmt.query_map`
(the query text built from `COOKIE_FIELDS` is absorbed into the
`prepare` outcome); a successfully opened connection carries the list
of raw rows the query yields. -/

/-- A raw SQLite column value, as seen by `rusqlite::Row::get`. -/
inductive SqlValue where
  | int (n : Int)
  | text (s : String)
  | real
  | blob
  | null
deriving DecidableEq, Repr

/-- One raw row of the cookies table: the ten selected columns in
query order (host, name, value, path, creation, expiry, last_access,
http_only, secure, samesite). -/
abbrev RawRow := List SqlValue

/-- An opaque database-level error (`rusqlite::Error`). -/
inductive SqlErr where
  | openFail
  | prepareFail
  | queryFail
deriving DecidableEq, Repr

/-- A successfully opened connection: the rows the query returns. -/
structure DBConn where
  rows : List RawRow
deriving DecidableEq, Repr

/-- Environment fixing the outcomes of the three fallible database
calls made by `load_cookies`. -/
structure DBEnv where
  openRes : Except SqlErr DBConn
  prepRes : Except SqlErr Unit
  queryRes : Except SqlErr Unit

/-- `row.get::<_,String>(i)`: succeeds on a `Text` value. -/
def getText (r : RawRow) (i : Nat) : Option String :=
  match r.get? i with
  | some (SqlValue.text s) => some s
  | _ => none

/-- `row.get::<_,i64>(i)`: succeeds on an `Integer` value. -/
def getI64 (r : RawRow) (i : Nat) : Option Int :=
  match r.get? i with
  | some (SqlValue.int n) => some n
  | _ => none

/-- `row.get::<_,bool>(i)`: rusqlite decodes a bool from an `Integer`
value, `0` meaning `false`. -/
def getBool (r : RawRow) (i : Nat) : Option Bool :=
  match r.get? i with
  | some (SqlValue.int n) => some (n != 0)
  | _ => none

/-- `row.get::<_,i32>(i)`: an `Integer` value within `i32` range. -/
def getI32 (r : RawRow) (i : Nat) : Option Int :=
  match r.get? i with
  | some (SqlValue.int n) =>
      if -2147483648 ≤ n ∧ n < 2147483648 then some n else none
  | _ => none

/-- The row-mapping closure passed to `query_map` in `load_cookies`:
builds a `Cookie` from a raw row, `none` when any `get` fails. -/
def decodeRow (self : CookieDB) (r : RawRow) : Option Cookie := do
  let host ← getText r 0
  let name ← getText r 1
  let value ← getText r 2
  let path ← getText r 3
  let creation ← getI64 r 4
  let expiry ← getI64 r 5
  let last_access ← getI64 r 6
  let http_only ← getBool r 7
  let secure ← getBool r 8
  let samesite ← getI32 r 9
  some { host := host, name := name, value := value, path := path,
         creation := self.get_unix_epoch creation,
         expiry := self.get_unix_epoch expiry,
         last_access := self.get_unix_epoch last_access,
         http_only := http_only, secure := secure, samesite := samesite }

/-- `CookieDB::load_cookies` from `src/cookie_db.rs`: open the
connection, prepare and run the query, then
`results_iter.filter_map(|r| r.ok()).collect()` into `self.cookies`. -/
def CookieDB.load_cookies (env : DBEnv) (self : CookieDB) :
    Except SqlErr CookieDB := do
  let conn ← env.openRes
  let _ ← env.prepRes
  let _ ← env.queryRes
  Except.ok { self with cookies := conn.rows.filterMap (decodeRow self) }

/-! ## Format detection (`cookie_db_type`)

The repository contains two versions of the detector:
`src/funcs.rs` compares the 15-byte prefix byte-by-byte against
`"SQLite format 3"`, while `src/util.rs` first decodes the prefix with
`String::from_utf8` and compares strings, silently skipping the
comparison when the prefix is not valid UTF-8.

A candidate file is modelled as an environment: the readable bytes (or
`none` when `File::open` fails), whether `rusqlite::Connection::open`
succeeds, and whether the `SELECT 1 FROM <table> LIMIT 1` probe of
`is_db_with_table` succeeds for each of the two table names.  The
returned pair records, besides the `Result`, whether
`rusqlite::Connection::open` was attempted. -/

/-- An opaque `std::io::Error`. -/
inductive IOErr where
  | openFail
  | readFail
deriving DecidableEq, Repr

/-- Environment fixing the outcome of every fallible call made by
`cookie_db_type` on one candidate file. -/
structure DetectEnv where
  /-- `none`: `File::open` fails; `some bs`: the file's bytes. -/
  fileBytes : Option (List Nat)
  /-- Does `rusqlite::Connection::open` succeed? -/
  dbOpens : Bool
  /-- Does the `is_db_with_table` probe succeed for `moz_cookies`? -/
  hasMozCookies : Bool
  /-- Does the `is_db_with_table` probe succeed for `cookies`? -/
  hasCookies : Bool
deriving DecidableEq, Repr

/-- The bytes of `"SQLite format 3"` (`SQLITE_FILE_ID` in
`crate::config`): the fixed 15-byte container signature. -/
def sqliteSig : List Nat :=
  [83, 81, 76, 105, 116, 101, 32, 102, 111, 114, 109, 97, 116, 32, 51]

/-- The common tail of both detectors after the signature check:
`rusqlite::Connection::open` followed by the two table probes. -/
def probeTables (env : DetectEnv) : DbType :=
  if env.dbOpens then
    if env.hasMozCookies then DbType.Firefox
    else if env.hasCookies then DbType.Chrome
    else DbType.Unknown
  else DbType.Unknown

/-- The `for (i,j) in buf.iter().zip(sig.iter())` loop of
`src/funcs.rs`: does any zipped byte pair differ? -/
def bytesDiffer (buf sig : List Nat) : Bool :=
  (buf.zip sig).any (fun p => p.1 ≠ p.2)

namespace Funcs

/-- `cookie_db_type` from `src/funcs.rs`, instrumented: the second
component records whether `rusqlite::Connection::open` was attempted.

`File::open(filepath)?` propagates the open failure; `read_exact`
fails (propagated by `?`) when fewer than 15 bytes are available;
then `buf.iter().zip("SQLite format 3".as_bytes().iter())` rejects on
the first differing byte. -/
def cookie_db_run (env : DetectEnv) : Except IOErr DbType × Bool :=
  match env.fileBytes with
  | none => (Except.error IOErr.openFail, false)
  | some bs =>
    if bs.length < 15 then (Except.error IOErr.readFail, false)
    else
      let buf := bs.take 15
      if bytesDiffer buf sqliteSig then
        (Except.ok DbType.Unknown, false)
      else
        (Except.ok (probeTables env), true)

/-- `cookie_db_type` from `src/funcs.rs` (result only). -/
def cookie_db_type (env : DetectEnv) : Except IOErr DbType :=
  (cookie_db_run env).1

end Funcs

/-- Is `b` a UTF-8 continuation byte (`0x80..=0xBF`)? -/
def isCont (b : Nat) : Bool := 128 ≤ b ∧ b ≤ 191

/-- Valid range of the second byte of a multi-byte UTF-8 sequence
whose first byte is `b1` (the strict ranges `String::from_utf8`
enforces, rejecting overlong and surrogate encodings). -/
def cont2Ok (b1 b2 : Nat) : Bool :=
  if b1 = 224 then 160 ≤ b2 ∧ b2 ≤ 191
  else if b1 = 237 then 128 ≤ b2 ∧ b2 ≤ 159
  else if b1 = 240 then 144 ≤ b2 ∧ b2 ≤ 191
  else if b1 = 244 then 128 ≤ b2 ∧ b2 ≤ 143
  else isCont b2

/-- Decode one UTF-8 scalar: given the first byte and the remaining
bytes, return the codepoint and the bytes after the sequence, or
`none` when the sequence is ill-formed (the strict first/second byte
ranges `String::from_utf8` enforces, rejecting overlong encodings and
surrogates). -/
def utf8DecodeOne (b1 : Nat) (rest : List Nat) : Option (Nat × List Nat) :=
  if b1 < 128 then some (b1, rest)
  else if 194 ≤ b1 ∧ b1 ≤ 223 then
    match rest with
    | b2 :: rest2 =>
      if isCont b2 then some ((b1 - 192) * 64 + (b2 - 128), rest2) else none
    | [] => none
  else if 224 ≤ b1 ∧ b1 ≤ 239 then
    match rest with
    | b2 :: b3 :: rest3 =>
      if cont2Ok b1 b2 ∧ isCont b3 then
        some ((b1 - 224) * 4096 + (b2 - 128) * 64 + (b3 - 128), rest3)
      else none
    | _ => none
  else if 240 ≤ b1 ∧ b1 ≤ 244 then
    match rest with
    | b2 :: b3 :: b4 :: rest4 =>
      if cont2Ok b1 b2 ∧ isCont b3 ∧ isCont b4 then
        some ((b1 - 240) * 262144 + (b2 - 128) * 4096
              + (b3 - 128) * 64 + (b4 - 128), rest4)
      else none
    | _ => none
  else none

/-- Fuelled scalar-by-scalar UTF-8 decoding loop; the fuel only bounds
the number of scalars and never runs out when it is at least the byte
count (each scalar consumes at least one byte). -/
def utf8DecodeFuel : Nat → List Nat → Option (List Nat)
  | _, [] => some []
  | 0, _ :: _ => none
  | fuel + 1, b1 :: rest =>
    match utf8DecodeOne b1 rest with
    | some (c, rest2) => (utf8DecodeFuel fuel rest2).map (fun cs => c :: cs)
    | none => none

/-- Strict UTF-8 decoding of a byte list into a codepoint list, the
validation `String::from_utf8` performs: `none` exactly when the bytes
are not valid UTF-8. -/
def utf8Decode (l : List Nat) : Option (List Nat) :=
  utf8DecodeFuel l.length l

namespace Util

/-- `cookie_db_type` from `src/util.rs`, instrumented like
`Funcs.cookie_db_run`.

After `File::open`/`read_exact`, the prefix check is
`if let Ok(f_header) = String::from_utf8(buf.to_vec())`: when the
prefix is not valid UTF-8 the comparison against `SQLITE_FILE_ID` is
skipped and control falls through to `rusqlite::Connection::open`. -/
def cookie_db_run (env : DetectEnv) : Except IOErr DbType × Bool :=
  match env.fileBytes with
  | none => (Except.error IOErr.openFail, false)
  | some bs =>
    if bs.length < 15 then (Except.error IOErr.readFail, false)
    else
      let buf := bs.take 15
      match utf8Decode buf with
      | some f_header =>
        if f_header ≠ sqliteSig then (Except.ok DbType.Unknown, false)
        else (Except.ok (probeTables env), true)
      | none => (Except.ok (probeTables env), true)

/-- `cookie_db_type` from `src/util.rs` (result only). -/
def cookie_db_type (env : DetectEnv) : Except IOErr DbType :=
  (cookie_db_run env).1

end Util

/-! ## TUI navigation and search (`src/tui.rs`)

The pieces of `crossterm::event::KeyCode` and of the `State` struct
(`crate::state`, whose source file is not part of the repository
snapshot) that `src/tui.rs` uses. -/

/-- The key codes `src/tui.rs` distinguishes. -/
inductive KeyCode where
  | char (c : Char)
  | left
  | right
  | up
  | down
  | enter
  | backspace
  | esc
deriving DecidableEq, Repr

/-- `Selection` enum from `crate::state`: the active level. -/
inductive Selection where
  | Profiles
  | Domains
  | Cookies
deriving DecidableEq, Repr

/-- Modelled from the spec: the list-cursor pair used for each of the
four columns of the missing `crate::state` — "four cursor lists, each
a pair of (ordered sequence of displayable items, optional selected
index)".  `selected` is the `tui::widgets::ListState` wrapped by
`status`, with `select` writing the `Option` directly. -/
structure StatefulList where
  items : List String
  selected : Option Nat
deriving DecidableEq, Repr

/-- Modelled from the spec: `State` from the missing `crate::state`,
with exactly the fields `src/tui.rs` reads and writes. -/
structure State where
  cookie_dbs : List CookieDB
  profiles : StatefulList
  current_domains : StatefulList
  current_cookies : StatefulList
  current_fields : StatefulList
  selection : Selection
  search_open : Bool
  search_field : String
  search_matches : List Nat
deriving DecidableEq, Repr

/-- Rust `str::contains`: `p.contains(&q)` holds when `q` is a
(case-sensitive) substring of `p`. -/
def strContains (p q : String) : Bool :=
  decide (q.data <:+: p.data)

/-- The indices of the items of `items` that contain `q`, in item
order: the indices the `for (i,p) in items.iter().enumerate()` loops
of `set_matches` and `handle_search_key` collect. -/
def matchIndices (items : List String) (q : String) : List Nat :=
  (items.enum.filter (fun p => strContains p.2 q)).map (fun p => p.1)

/-- `set_matches` from `src/tui.rs`: push every match index onto
`search_matches`, reverse, then `Vec::pop` (remove and return the last
element).  Returns the updated stack and the popped first match. -/
def set_matches (items : List String) (q : String)
    (search_matches : List Nat) : List Nat × Option Nat :=
  let sm := search_matches ++ matchIndices items q
  let sm := sm.reverse
  (sm.dropLast, sm.getLast?)

/-- `handle_search_key` from `src/tui.rs` (input mode). -/
def handle_search_key (code : KeyCode) (state : State) : State :=
  match code with
  | KeyCode.enter =>
    let query := state.search_field
    let state := { state with
      search_open := false, search_matches := [], search_field := "" }
    match state.selection with
    | Selection.Profiles =>
      -- matches of `query` against `p.path.to_string_lossy()`;
      -- pushed in order and popped without the reverse `set_matches` does
      let ms := (state.cookie_dbs.enum.filter
        (fun p => strContains p.2.path query)).map (fun p => p.1)
      { state with
        search_matches := ms.dropLast,
        profiles := { state.profiles with selected := ms.getLast? } }
    | Selection.Domains =>
      let r := set_matches state.current_domains.items query state.search_matches
      { state with
        search_matches := r.1,
        current_domains := { state.current_domains with selected := r.2 } }
    | Selection.Cookies =>
      let r := set_matches state.current_cookies.items query state.search_matches
      { state with
        search_matches := r.1,
        current_cookies := { state.current_cookies with selected := r.2 } }
  | KeyCode.char c => { state with search_field := state.search_field.push c }
  | KeyCode.backspace => { state with search_field := state.search_field.dropRight 1 }
  | KeyCode.esc => { state with search_field := "", search_open := false }
  | _ => state

/-- Modelled from the spec: `StatefulList::next` of the missing
`crate::state` — advance the selected index with wrap-around, or
select index 0 when nothing is selected. -/
def StatefulList.next (l : StatefulList) : StatefulList :=
  { l with selected :=
      match l.selected with
      | some i => some (if i + 1 < l.items.length then i + 1 else 0)
      | none => some 0 }

/-- Modelled from the spec: `StatefulList::previous` of the missing
`crate::state` — retreat the selected index with wrap-around, or
select index 0 when nothing is selected. -/
def StatefulList.previous (l : StatefulList) : StatefulList :=
  { l with selected :=
      match l.selected with
      | some i => some (if i = 0 then l.items.length - 1 else i - 1)
      | none => some 0 }

/-- `handle_key` from `src/tui.rs` (normal mode). -/
def handle_key (code : KeyCode) (state : State) : State :=
  if code = KeyCode.left ∨ code = KeyCode.char 'h' then
    match state.selection with
    | Selection.Profiles => state
    | Selection.Domains =>
      { state with
        current_domains := { state.current_domains with selected := none },
        selection := Selection.Profiles }
    | Selection.Cookies =>
      { state with
        current_cookies := { state.current_cookies with selected := none },
        selection := Selection.Domains }
  else if code = KeyCode.down ∨ code = KeyCode.char 'j' then
    match state.selection with
    | Selection.Profiles => { state with profiles := state.profiles.next }
    | Selection.Domains =>
      { state with current_domains := state.current_domains.next }
    | Selection.Cookies =>
      { state with current_cookies := state.current_cookies.next }
  else if code = KeyCode.up ∨ code = KeyCode.char 'k' then
    match state.selection with
    | Selection.Profiles => { state with profiles := state.profiles.previous }
    | Selection.Domains =>
      { state with current_domains := state.current_domains.previous }
    | Selection.Cookies =>
      { state with current_cookies := state.current_cookies.previous }
  else if code = KeyCode.right ∨ code = KeyCode.char 'l' then
    match state.selection with
    | Selection.Profiles =>
      if 0 < state.current_domains.items.length then
        { state with
          current_domains := { state.current_domains with selected := some 0 },
          selection := Selection.Domains }
      else state
    | Selection.Domains =>
      if 0 < state.current_cookies.items.length then
        { state with
          current_cookies := { state.current_cookies with selected := some 0 },
          selection := Selection.Cookies }
      else state
    | Selection.Cookies => state
  else if code = KeyCode.char '/' then
    { state with search_open := true }
  else
    state

/-- One key event of the `run_ui` loop of `src/tui.rs`: input mode
dispatches to `handle_search_key`; normal mode returns on `q` (a
no-op on the state) and dispatches everything else to `handle_key`. -/
def step (state : State) (code : KeyCode) : State :=
  if state.search_open then handle_search_key code state
  else if code = KeyCode.char 'q' then state
  else handle_key code state

/-- Modelled from the spec: `State::from_cookie_dbs` of the missing
`crate::state` — the initial session state over the loaded stores,
with no selection in any list, `Profiles` active and search closed. -/
def State.from_cookie_dbs (dbs : List CookieDB) : State :=
  { cookie_dbs := dbs
    profiles := { items := dbs.map (fun d => d.path), selected := none }
    current_domains := { items := [], selected := none }
    current_cookies := { items := [], selected := none }
    current_fields := { items := [], selected := none }
    selection := Selection.Profiles
    search_open := false
    search_field := ""
    search_matches := [] }

/-- The auto-selection `run_ui` performs before its loop: select the
first profile when the profile list is non-empty. -/
def run_ui_init (state : State) : State :=
  if 0 < state.profiles.items.length then
    { state with profiles := { state.profiles with selected := some 0 } }
  else state

/-- The navigation state reached from the initial state after the key
events `keys`. -/
def reachState (dbs : List CookieDB) (keys : List KeyCode) : State :=
  keys.foldl step (run_ui_init (State.from_cookie_dbs dbs))

/-! ## The TUI entrypoint `run` (`src/tui.rs`)

`run` is a straight-line sequence of fallible terminal calls around
the `run_ui` loop.  Each call's outcome is fixed by an environment;
executing `run` yields an outcome (normal return, error return via
`?`, or panic via `.unwrap()`) together with the ordered trace of the
calls that were attempted. -/

/-- The terminal operations `run` performs, in trace order. -/
inductive TermCall where
  | enableRaw
  | enterAltScreen
  | newTerminal
  | runUiCall
  | disableRaw
  | leaveAltScreen
  | showCursor
deriving DecidableEq, Repr

/-- Outcome of one execution of `run`. -/
inductive RunOutcome where
  | ok
  | err (e : IOErr)
  | panicked
deriving DecidableEq, Repr

/-- Environment fixing the result of each fallible call in `run`. -/
structure TermEnv where
  enableRawRes : Except IOErr Unit
  enterAltRes : Except IOErr Unit
  newTerminalRes : Except IOErr Unit
  runUiRes : Except IOErr Unit
  disableRawRes : Except IOErr Unit
  leaveAltRes : Except IOErr Unit
  showCursorRes : Except IOErr Unit

/-- `run` from `src/tui.rs`: `enable_raw_mode()?`,
`execute!(stdout, EnterAlternateScreen, ...)?`, `Terminal::new(..)?`,
`run_ui(..).unwrap()`, `disable_raw_mode()?`,
`execute!(.., LeaveAlternateScreen, ..)?`, `terminal.show_cursor()?`,
`Ok(())`.  A call appears in the trace when it is attempted; `?`
turns a failure into an error return, `.unwrap()` into a panic. -/
def run (env : TermEnv) : RunOutcome × List TermCall :=
  match env.enableRawRes with
  | Except.error e => (RunOutcome.err e, [TermCall.enableRaw])
  | Except.ok _ =>
  match env.enterAltRes with
  | Except.error e =>
    (RunOutcome.err e, [TermCall.enableRaw, TermCall.enterAltScreen])
  | Except.ok _ =>
  match env.newTerminalRes with
  | Except.error e =>
    (RunOutcome.err e,
     [TermCall.enableRaw, TermCall.enterAltScreen, TermCall.newTerminal])
  | Except.ok _ =>
  match env.runUiRes with
  | Except.error _ =>
    (RunOutcome.panicked,
     [TermCall.enableRaw, TermCall.enterAltScreen, TermCall.newTerminal,
      TermCall.runUiCall])
  | Except.ok _ =>
  match env.disableRawRes with
  | Except.error e =>
    (RunOutcome.err e,
     [TermCall.enableRaw, TermCall.enterAltScreen, TermCall.newTerminal,
      TermCall.runUiCall, TermCall.disableRaw])
  | Except.ok _ =>
  match env.leaveAltRes with
  | Except.error e =>
    (RunOutcome.err e,
     [TermCall.enableRaw, TermCall.enterAltScreen, TermCall.newTerminal,
      TermCall.runUiCall, TermCall.disableRaw, TermCall.leaveAltScreen])
  | Except.ok _ =>
  match env.showCursorRes with
  | Except.error e =>
    (RunOutcome.err e,
     [TermCall.enableRaw, TermCall.enterAltScreen, TermCall.newTerminal,
      TermCall.runUiCall, TermCall.disableRaw, TermCall.leaveAltScreen,
      TermCall.showCursor])
  | Except.ok _ =>
    (RunOutcome.ok,
     [TermCall.enableRaw, TermCall.enterAltScreen, TermCall.newTerminal,
      TermCall.runUiCall, TermCall.disableRaw, TermCall.leaveAltScreen,
      TermCall.showCursor])

/-! ## Concrete inputs used by the theorems -/

/-- A Firefox-variant (`EngineA`) store before loading. -/
def ffDb : CookieDB :=
  { path := "/home/u/.mozilla/cookies.sqlite", typing := DbType.Firefox,
    cookies := [] }

/-- A well-typed row whose expiry column holds `0`. -/
def rowExpiryZero : RawRow :=
  [SqlValue.text "example.com", SqlValue.text "sid", SqlValue.text "v1",
   SqlValue.text "/", SqlValue.int 1000000, SqlValue.int 0,
   SqlValue.int 1000000, SqlValue.int 0, SqlValue.int 1, SqlValue.int 0]

/-- A well-typed row whose creation column holds `13281964800000000`. -/
def rowCreationBig : RawRow :=
  [SqlValue.text "example.org", SqlValue.text "tok", SqlValue.text "v2",
   SqlValue.text "/", SqlValue.int 13281964800000000, SqlValue.int 2000000,
   SqlValue.int 2000000, SqlValue.int 1, SqlValue.int 0, SqlValue.int 1]

/-- A connection yielding the two rows above. -/
def connTwoRows : DBConn := { rows := [rowExpiryZero, rowCreationBig] }

/-- A database environment yielding the two rows above. -/
def envTwoRows : DBEnv :=
  { openRes := Except.ok connTwoRows,
    prepRes := Except.ok (), queryRes := Except.ok () }

/-! ## C1: timestamp conversion -/

/-- C1: `get_unix_epoch` returns `0` when the raw value is `0`
regardless of variant; returns `raw / 1_000_000` (truncated integer
division) when the variant is `EngineA` (Firefox); and returns
`(raw / 1_000_000) - 11_644_473_600` when the variant is `EngineB`
(Chrome) and the raw value is non-zero. -/
theorem get_unix_epoch_spec (db : CookieDB) (t : Int) :
    (t = 0 → db.get_unix_epoch t = 0) ∧
    (db.typing = DbType.Firefox → db.get_unix_epoch t = t.tdiv 1000000) ∧
    (db.typing = DbType.Chrome → t ≠ 0 →
      db.get_unix_epoch t = t.tdiv 1000000 - 11644473600) := by
  refine ⟨fun h => ?_, fun h => ?_, fun h hne => ?_⟩
  · simp [CookieDB.get_unix_epoch, h]
  · by_cases ht : t = 0
    · simp [CookieDB.get_unix_epoch, ht, h]
    · simp [CookieDB.get_unix_epoch, ht, h]
  · have hff : db.typing ≠ DbType.Firefox := by rw [h]; intro hc; cases hc
    simp [CookieDB.get_unix_epoch, hne, hff]

/-- Witness for C1 at a Chrome store and raw value
`13285473600000000`. -/
theorem get_unix_epoch_spec_witness :
    ({ path := "c", typing := DbType.Chrome, cookies := [] } :
      CookieDB).get_unix_epoch 13285473600000000
      = Int.tdiv 13285473600000000 1000000 - 11644473600 :=
  (get_unix_epoch_spec _ 13285473600000000).2.2 rfl (by decide)

/-! ## C2: end-to-end EngineA loading scenario -/

/-- C2 counterexample: loading the `EngineA` (Firefox) store with the
two rows maps `expires_utc = 0` to `expiry == 0` as claimed, but maps
`creation_utc = 13281964800000000` to `creation == 13281964800`
(`13281964800000000 / 1_000_000`), not `1641000000` as the claim
states. -/
theorem load_cookies_engineA_creation_counterexample :
    (ffDb.load_cookies envTwoRows).toOption.map
        (fun d => d.cookies.map (fun c => (c.creation, c.expiry)))
      = some [(1, 0), (13281964800, 2)] ∧
    (13281964800 : Int) ≠ 1641000000 := by
  constructor
  · rfl
  · decide

/-- C2 (amended): loading a store with variant `EngineA` maps a row
whose expiry column holds `0` to a `Cookie` with `expiry == 0`, and
maps a row whose creation column holds `13281964800000000` to a
`Cookie` with `creation == 13281964800`. -/
theorem load_cookies_engineA_scenario :
    ffDb.load_cookies envTwoRows = Except.ok { ffDb with cookies :=
      [{ host := "example.com", name := "sid", value := "v1", path := "/",
         creation := 1, expiry := 0, last_access := 1,
         http_only := false, secure := true, samesite := 0 },
       { host := "example.org", name := "tok", value := "v2", path := "/",
         creation := 13281964800, expiry := 2, last_access := 2,
         http_only := true, secure := false, samesite := 1 }] } := by
  rfl

/-! ## C5: best-effort row decoding -/

/-- C5: when the database opens and the single query prepares and
executes, `load_cookies` succeeds with exactly the rows that decode
successfully (rows that fail to decode are silently dropped); and it
returns an error if and only if opening, preparing or executing
fails. -/
theorem load_cookies_best_effort (env : DBEnv) (db : CookieDB) :
    (∀ conn, env.openRes = Except.ok conn → env.prepRes = Except.ok () →
      env.queryRes = Except.ok () →
      db.load_cookies env
        = Except.ok { db with cookies := conn.rows.filterMap (decodeRow db) }) ∧
    ((db.load_cookies env).isOk
      = (env.openRes.isOk && env.prepRes.isOk && env.queryRes.isOk)) := by
  constructor
  · intro conn h1 h2 h3
    simp [CookieDB.load_cookies, h1, h2, h3, bind, Except.bind]
  · rcases h1 : env.openRes with e | conn <;>
      rcases h2 : env.prepRes with e2 | u <;>
        rcases h3 : env.queryRes with e3 | u3 <;>
          simp [CookieDB.load_cookies, h1, h2, h3, Except.isOk, Except.toBool,
            bind, Except.bind]

/-- Witness for C5: the two-row environment loads both rows. -/
theorem load_cookies_best_effort_witness :
    ffDb.load_cookies envTwoRows
      = Except.ok { ffDb with
          cookies := connTwoRows.rows.filterMap (decodeRow ffDb) } :=
  (load_cookies_best_effort envTwoRows ffDb).1 connTwoRows rfl rfl rfl

/-! ## C6: search match collection -/

/-- C6: `set_matches` (called with the freshly cleared match stack)
scans items in order and returns the index of the first item
containing the query as a case-sensitive substring; the pending-match
stack holds the remaining match indices reversed, so the next
`Vec::pop` yields the next match; in particular, for items
`["a.com","b.com","ab.com"]` and query `"a"` it returns index `0` and
the pending stack holds exactly index `2`. -/
theorem set_matches_spec (items : List String) (q : String) :
    set_matches items q []
      = ((matchIndices items q).tail.reverse, (matchIndices items q).head?) ∧
    (set_matches items q []).1.getLast? = (matchIndices items q).tail.head? ∧
    set_matches ["a.com", "b.com", "ab.com"] "a" [] = ([2], some 0) := by
  refine ⟨?_, ?_, ?_⟩
  · simp [set_matches, List.dropLast_reverse, List.getLast?_reverse]
  · simp [set_matches, List.dropLast_reverse, List.getLast?_reverse]
  · rfl

/-! ## C7: committed search with no match -/

/-- A state in `Domains` level with an open search whose query
matches nothing. -/
def missState : State :=
  { cookie_dbs := [ffDb]
    profiles := { items := [ffDb.path], selected := some 0 }
    current_domains := { items := ["example.com", "example.org"],
                         selected := some 0 }
    current_cookies := { items := [], selected := none }
    current_fields := { items := [], selected := none }
    selection := Selection.Domains
    search_open := true
    search_field := "zzz"
    search_matches := [] }

/-- C7 counterexample: committing a search whose query matches no
item of the active (Domains) list does close the search UI, but
clears the selection (`select(first_match)` with `first_match ==
None`) instead of leaving it unchanged: the selected index goes from
`some 0` to `none`. -/
theorem search_miss_clears_selection_counterexample :
    matchIndices missState.current_domains.items missState.search_field = [] ∧
    missState.current_domains.selected = some 0 ∧
    (handle_search_key KeyCode.enter missState).current_domains.selected
      = none ∧
    (handle_search_key KeyCode.enter missState).search_open = false := by
  exact ⟨rfl, rfl, rfl, rfl⟩

/-- C7 (amended): when a committed search query matches no item of
the active level's list, the active level's selected index is cleared
to `None`, the search UI closes with an emptied query buffer and
match stack, and all other state fields are unchanged. -/
theorem search_miss_effect (s : State) :
    (s.selection = Selection.Profiles →
      (s.cookie_dbs.enum.filter
        (fun p => strContains p.2.path s.search_field)).map (fun p => p.1)
        = [] →
      handle_search_key KeyCode.enter s
        = { s with
              search_open := false,
              search_field := "",
              search_matches := [],
              profiles := { s.profiles with selected := none } }) ∧
    (s.selection = Selection.Domains →
      matchIndices s.current_domains.items s.search_field = [] →
      handle_search_key KeyCode.enter s
        = { s with
              search_open := false,
              search_field := "",
              search_matches := [],
              current_domains := { s.current_domains with selected := none } }) ∧
    (s.selection = Selection.Cookies →
      matchIndices s.current_cookies.items s.search_field = [] →
      handle_search_key KeyCode.enter s
        = { s with
              search_open := false,
              search_field := "",
              search_matches := [],
              current_cookies := { s.current_cookies with selected := none } }) := by
  refine ⟨fun h1 h2 => ?_, fun h1 h2 => ?_, fun h1 h2 => ?_⟩ <;>
    simp [handle_search_key, h1, h2, set_matches]

/-- Witness for C7 (amended) at the concrete miss state. -/
theorem search_miss_effect_witness :
    handle_search_key KeyCode.enter missState
      = { missState with
            search_open := false,
            search_field := "",
            search_matches := [],
            current_domains := { missState.current_domains with
                                 selected := none } } :=
  (search_miss_effect missState).2.1 rfl rfl

/-! ## C8: cross-level selection invariant -/

/-- The inductive invariant of the navigation state machine: while
`Profiles` is active neither child list has a selection, and while
`Domains` is active the `Cookies` list has no selection. -/
def NavInv (s : State) : Prop :=
  (s.selection = Selection.Profiles →
    s.current_domains.selected = none ∧ s.current_cookies.selected = none) ∧
  (s.selection = Selection.Domains → s.current_cookies.selected = none)

theorem navInv_handle_search_key (c : KeyCode) (s : State) (h : NavInv s) :
    NavInv (handle_search_key c s) := by
  obtain ⟨dbs, prof, dom, cook, fields, sel, so, sf, sm⟩ := s
  obtain ⟨h1, h2⟩ := h
  simp only at h1 h2
  cases c <;> cases sel <;> simp_all [handle_search_key, NavInv]

theorem navInv_handle_key (c : KeyCode) (s : State) (h : NavInv s) :
    NavInv (handle_key c s) := by
  obtain ⟨dbs, prof, dom, cook, fields, sel, so, sf, sm⟩ := s
  obtain ⟨h1, h2⟩ := h
  simp only at h1 h2
  unfold handle_key
  cases sel <;> split_ifs <;> simp_all [NavInv]

theorem navInv_step (s : State) (c : KeyCode) (h : NavInv s) :
    NavInv (step s c) := by
  unfold step
  split_ifs with hso hq
  · exact navInv_handle_search_key c s h
  · exact h
  · exact navInv_handle_key c s h

theorem navInv_foldl (keys : List KeyCode) (s : State) (h : NavInv s) :
    NavInv (keys.foldl step s) := by
  induction keys generalizing s with
  | nil => exact h
  | cons k ks ih => exact ih (step s k) (navInv_step s k h)

theorem navInv_init (dbs : List CookieDB) :
    NavInv (run_ui_init (State.from_cookie_dbs dbs)) := by
  unfold run_ui_init State.from_cookie_dbs
  split_ifs <;> exact ⟨fun _ => ⟨rfl, rfl⟩, fun _ => rfl⟩

/-- C8: in every state reachable from the initial navigation state by
key events, whenever the active level is `Profiles` both the domains
list's and the cookies list's selected index are `None`. -/
theorem profiles_active_no_child_selection (dbs : List CookieDB)
    (keys : List KeyCode)
    (h : (reachState dbs keys).selection = Selection.Profiles) :
    (reachState dbs keys).current_domains.selected = none ∧
    (reachState dbs keys).current_cookies.selected = none :=
  (navInv_foldl keys (run_ui_init (State.from_cookie_dbs dbs))
    (navInv_init dbs)).1 h

/-- Witness for C8: a concrete run descending to `Domains`, moving,
and ascending back to `Profiles`. -/
theorem profiles_active_no_child_selection_witness :
    (reachState [ffDb]
        [KeyCode.right, KeyCode.down, KeyCode.left]).current_domains.selected
      = none ∧
    (reachState [ffDb]
        [KeyCode.right, KeyCode.down, KeyCode.left]).current_cookies.selected
      = none :=
  profiles_active_no_child_selection [ffDb]
    [KeyCode.right, KeyCode.down, KeyCode.left] (by rfl)

/-! ## C9: terminal-mode cleanup in `run` -/

/-- An environment where the terminal is set up successfully and the
inner application loop `run_ui` returns an error. -/
def runUiErrEnv : TermEnv :=
  { enableRawRes := Except.ok (), enterAltRes := Except.ok (),
    newTerminalRes := Except.ok (), runUiRes := Except.error IOErr.readFail,
    disableRawRes := Except.ok (), leaveAltRes := Except.ok (),
    showCursorRes := Except.ok () }

/-- C9 counterexample: on the exit path where `run_ui` returns an
error, `run_ui(...).unwrap()` panics and `run` terminates without
ever calling `disable_raw_mode` or leaving the alternate screen. -/
theorem run_cleanup_counterexample :
    run runUiErrEnv
      = (RunOutcome.panicked,
         [TermCall.enableRaw, TermCall.enterAltScreen, TermCall.newTerminal,
          TermCall.runUiCall]) ∧
    TermCall.disableRaw ∉ (run runUiErrEnv).2 ∧
    TermCall.leaveAltScreen ∉ (run runUiErrEnv).2 := by
  refine ⟨rfl, ?_, ?_⟩ <;> decide

/-- C9 (amended): cleanup is guaranteed only on the non-panicking
paths: when terminal setup succeeds and `run_ui` returns `Ok`,
`disable_raw_mode` is invoked before `run` terminates, and leaving
the alternate screen follows whenever `disable_raw_mode` succeeds;
when `run_ui` returns an error, `run` panics via `.unwrap()` without
performing any cleanup. -/
theorem run_cleanup (env : TermEnv)
    (h1 : env.enableRawRes = Except.ok ())
    (h2 : env.enterAltRes = Except.ok ())
    (h3 : env.newTerminalRes = Except.ok ()) :
    (env.runUiRes = Except.ok () →
      TermCall.disableRaw ∈ (run env).2 ∧
      (env.disableRawRes = Except.ok () →
        TermCall.leaveAltScreen ∈ (run env).2)) ∧
    (∀ e, env.runUiRes = Except.error e →
      (run env).1 = RunOutcome.panicked ∧
      TermCall.disableRaw ∉ (run env).2 ∧
      TermCall.leaveAltScreen ∉ (run env).2) := by
  constructor
  · intro h4
    constructor
    · rcases h5 : env.disableRawRes with e5 | u5 <;>
        rcases h6 : env.leaveAltRes with e6 | u6 <;>
          rcases h7 : env.showCursorRes with e7 | u7 <;>
            simp [run, h1, h2, h3, h4, h5, h6, h7]
    · intro h5
      rcases h6 : env.leaveAltRes with e6 | u6 <;>
        rcases h7 : env.showCursorRes with e7 | u7 <;>
          simp [run, h1, h2, h3, h4, h5, h6, h7]
  · intro e h4
    simp [run, h1, h2, h3, h4]

/-- Witness for C9 (amended) at an all-successful environment. -/
theorem run_cleanup_witness :
    TermCall.disableRaw
        ∈ (run { enableRawRes := Except.ok (), enterAltRes := Except.ok (),
                 newTerminalRes := Except.ok (), runUiRes := Except.ok (),
                 disableRawRes := Except.ok (), leaveAltRes := Except.ok (),
                 showCursorRes := Except.ok () }).2 ∧
    TermCall.leaveAltScreen
        ∈ (run { enableRawRes := Except.ok (), enterAltRes := Except.ok (),
                 newTerminalRes := Except.ok (), runUiRes := Except.ok (),
                 disableRawRes := Except.ok (), leaveAltRes := Except.ok (),
                 showCursorRes := Except.ok () }).2 := by
  have h := run_cleanup
    { enableRawRes := Except.ok (), enterAltRes := Except.ok (),
      newTerminalRes := Except.ok (), runUiRes := Except.ok (),
      disableRawRes := Except.ok (), leaveAltRes := Except.ok (),
      showCursorRes := Except.ok () } rfl rfl rfl
  exact ⟨(h.1 rfl).1, (h.1 rfl).2 rfl⟩

/-! ## C3: totality of detection -/

/-- A candidate whose file cannot be opened. -/
def noOpenEnv : DetectEnv :=
  { fileBytes := none, dbOpens := true,
    hasMozCookies := true, hasCookies := true }

/-- A candidate file shorter than 15 bytes. -/
def shortFileEnv : DetectEnv :=
  { fileBytes := some [83, 81], dbOpens := true,
    hasMozCookies := true, hasCookies := true }

/-- C3 counterexample: both versions of `cookie_db_type` propagate
`File::open` and `read_exact` failures with `?` and return `Err`
rather than collapsing them to `Unknown`. -/
theorem detect_propagates_io_error_counterexample :
    Funcs.cookie_db_type noOpenEnv = Except.error IOErr.openFail ∧
    Util.cookie_db_type noOpenEnv = Except.error IOErr.openFail ∧
    Funcs.cookie_db_type shortFileEnv = Except.error IOErr.readFail ∧
    Util.cookie_db_type shortFileEnv = Except.error IOErr.readFail := by
  exact ⟨rfl, rfl, rfl, rfl⟩

/-- C3 (amended): once the 15-byte prefix read succeeds, both
detectors are total — database open failure and failed table probes
collapse to `Ok Unknown`, never an error; but a file-open failure or
a short read is returned as `Err` to the caller
(`cookie_dbs_from_profiles` collapses it to `Unknown` with
`unwrap_or_else`). -/
theorem detect_total_after_read (env : DetectEnv) (bs : List Nat)
    (h1 : env.fileBytes = some bs) (h2 : 15 ≤ bs.length) :
    (Funcs.cookie_db_type env).isOk = true ∧
    (Util.cookie_db_type env).isOk = true ∧
    ((env.dbOpens = false ∨
        (env.hasMozCookies = false ∧ env.hasCookies = false)) →
      Funcs.cookie_db_type env = Except.ok DbType.Unknown ∧
      Util.cookie_db_type env = Except.ok DbType.Unknown) := by
  have hlt : ¬ bs.length < 15 := by omega
  unfold Funcs.cookie_db_type Funcs.cookie_db_run
    Util.cookie_db_type Util.cookie_db_run
  rw [h1]
  simp only [if_neg hlt]
  refine ⟨?_, ?_, ?_⟩
  · split <;> simp [Except.isOk, Except.toBool]
  · rcases hdec : utf8Decode (bs.take 15) with _ | cs
    · simp [hdec, Except.isOk, Except.toBool]
    · simp only [hdec]
      split <;> simp [Except.isOk, Except.toBool]
  · intro hfail
    have hprobe : probeTables env = DbType.Unknown := by
      unfold probeTables
      rcases hfail with hopen | ⟨hmoz, hck⟩
      · simp [hopen]
      · simp [hmoz, hck]
    constructor
    · split <;> simp [hprobe]
    · rcases hdec : utf8Decode (bs.take 15) with _ | cs
      · simp [hdec, hprobe]
      · simp only [hdec]
        split <;> simp [hprobe]

/-- Witness for C3 (amended): a 15-byte all-zero file on which the
database fails to open. -/
theorem detect_total_after_read_witness :
    (Funcs.cookie_db_type
        { fileBytes := some (List.replicate 15 0), dbOpens := false,
          hasMozCookies := false, hasCookies := false }).isOk = true ∧
    (Util.cookie_db_type
        { fileBytes := some (List.replicate 15 0), dbOpens := false,
          hasMozCookies := false, hasCookies := false }).isOk = true := by
  have h := detect_total_after_read
    { fileBytes := some (List.replicate 15 0), dbOpens := false,
      hasMozCookies := false, hasCookies := false }
    (List.replicate 15 0) rfl (by decide)
  exact ⟨h.1, h.2.1⟩

/-! ## C4: immediate rejection of non-matching prefixes -/

/-- A candidate whose first 15 bytes are `0xFF` (not valid UTF-8 and
different from the signature) but which opens as a database with a
populated `moz_cookies` table. -/
def nonUtf8Env : DetectEnv :=
  { fileBytes := some (List.replicate 15 255), dbOpens := true,
    hasMozCookies := true, hasCookies := true }

/-- C4 failing input: the 15-byte prefix `0xFF × 15` differs from the
signature, yet `cookie_db_type` in `src/util.rs` skips the signature
comparison (the `if let Ok(f_header) = String::from_utf8(..)` guard
fails), attempts `rusqlite::Connection::open` (second component
`true`) and returns `Firefox`; the byte-wise version in
`src/funcs.rs` rejects the same input immediately without opening. -/
theorem util_nonutf8_prefix_opens_database :
    List.replicate 15 (255 : Nat) ≠ sqliteSig ∧
    utf8Decode (List.replicate 15 255) = none ∧
    Util.cookie_db_run nonUtf8Env = (Except.ok DbType.Firefox, true) ∧
    Funcs.cookie_db_run nonUtf8Env = (Except.ok DbType.Unknown, false) := by
  exact ⟨by decide, rfl, rfl, rfl⟩

/-! ## C10: equivalence of the two detector implementations -/

/-- C10 counterexample: on the `0xFF × 15` prefix the two
implementations disagree — `src/funcs.rs` returns `Unknown`,
`src/util.rs` returns `Firefox`. -/
theorem detectors_disagree_counterexample :
    Funcs.cookie_db_type nonUtf8Env = Except.ok DbType.Unknown ∧
    Util.cookie_db_type nonUtf8Env = Except.ok DbType.Firefox ∧
    DbType.Unknown ≠ DbType.Firefox := by
  exact ⟨rfl, rfl, by decide⟩

/-- Every `cont2Ok` second byte is a continuation byte. -/
theorem cont2Ok_range (b1 b2 : Nat) (h : cont2Ok b1 b2 = true) :
    128 ≤ b2 ∧ b2 ≤ 191 := by
  unfold cont2Ok isCont at h
  split_ifs at h <;> simp at h <;> omega

/-- An ill-formed scalar aside, `utf8DecodeOne` only produces a
codepoint below `0x80` from a single identical ASCII byte: multi-byte
sequences decode to codepoints of at least `0x80` because overlong
encodings are rejected. -/
theorem utf8DecodeOne_ascii (b1 : Nat) (rest : List Nat) (c : Nat)
    (rest2 : List Nat) (h : utf8DecodeOne b1 rest = some (c, rest2))
    (hc : c < 128) : b1 = c ∧ rest2 = rest := by
  unfold utf8DecodeOne at h
  split_ifs at h with hb1 hb2 hb3 hb4
  · -- ASCII byte: identity
    simp at h
    exact ⟨h.1, h.2.symm⟩
  · -- 2-byte sequence: codepoint is at least 0x80
    cases rest with
    | nil => simp at h
    | cons b2 r2 =>
      simp only [] at h
      by_cases hcont : isCont b2 = true
      · rw [if_pos hcont] at h
        simp at h
        unfold isCont at hcont
        simp at hcont
        omega
      · rw [if_neg hcont] at h
        exact absurd h (by simp)
  · -- 3-byte sequence: codepoint is at least 0x800
    cases rest with
    | nil => simp at h
    | cons b2 r2 =>
      cases r2 with
      | nil => simp at h
      | cons b3 r3 =>
        simp only [] at h
        by_cases hcond : cont2Ok b1 b2 = true ∧ isCont b3 = true
        · rw [if_pos hcond] at h
          simp at h
          rcases cont2Ok_range b1 b2 hcond.1 with ⟨hb2lo, _⟩
          rcases hb3 with ⟨hb1lo, hb1hi⟩
          by_cases he : b1 = 224
          · have h160 : 160 ≤ b2 := by
              have hcc := hcond.1
              unfold cont2Ok at hcc
              rw [he] at hcc
              simp at hcc
              omega
            omega
          · have h225 : 225 ≤ b1 := by omega
            omega
        · rw [if_neg hcond] at h
          exact absurd h (by simp)
  · -- 4-byte sequence: codepoint is at least 0x10000
    cases rest with
    | nil => simp at h
    | cons b2 r2 =>
      cases r2 with
      | nil => simp at h
      | cons b3 r3 =>
        cases r3 with
        | nil => simp at h
        | cons b4 r4 =>
          simp only [] at h
          by_cases hcond : cont2Ok b1 b2 = true ∧ isCont b3 = true
              ∧ isCont b4 = true
          · rw [if_pos hcond] at h
            simp at h
            rcases cont2Ok_range b1 b2 hcond.1 with ⟨hb2lo, _⟩
            rcases hb4 with ⟨hb1lo, hb1hi⟩
            by_cases he : b1 = 240
            · have h144 : 144 ≤ b2 := by
                have hcc := hcond.1
                unfold cont2Ok at hcc
                rw [he] at hcc
                simp at hcc
                omega
              omega
            · have h241 : 241 ≤ b1 := by omega
              omega
          · rw [if_neg hcond] at h
            exact absurd h (by simp)

/-- A byte list that decodes (with any fuel) to an all-ASCII
codepoint list is that codepoint list itself. -/
theorem utf8DecodeFuel_ascii (fuel : Nat) :
    ∀ (l cs : List Nat), utf8DecodeFuel fuel l = some cs →
      (∀ c ∈ cs, c < 128) → l = cs := by
  induction fuel with
  | zero =>
    intro l cs hdec _
    cases l with
    | nil => exact Option.some.inj hdec
    | cons b1 rest => exact absurd hdec (by simp [utf8DecodeFuel])
  | succ fuel ih =>
    intro l cs hdec hascii
    cases l with
    | nil => exact Option.some.inj hdec
    | cons b1 rest =>
      rw [utf8DecodeFuel] at hdec
      rcases hone : utf8DecodeOne b1 rest with _ | ⟨c, rest2⟩
      · rw [hone] at hdec
        exact absurd hdec (by simp)
      · rw [hone] at hdec
        simp only [Option.map_eq_some'] at hdec
        obtain ⟨cs0, hcs0, hcons⟩ := hdec
        subst hcons
        have hc : c < 128 := hascii c (List.mem_cons_self c cs0)
        obtain ⟨hb1c, hrest⟩ := utf8DecodeOne_ascii b1 rest c rest2 hone hc
        subst hrest
        have hr := ih rest2 cs0 hcs0
          (fun x hx => hascii x (List.mem_cons_of_mem c hx))
        rw [hb1c, hr]

/-- A byte list that is valid UTF-8 and decodes to an all-ASCII
codepoint list is that codepoint list itself: `String::from_utf8`
rejects overlong encodings of ASCII characters. -/
theorem utf8Decode_ascii (l cs : List Nat) (hdec : utf8Decode l = some cs)
    (hascii : ∀ c ∈ cs, c < 128) : l = cs :=
  utf8DecodeFuel_ascii l.length l cs hdec hascii

/-- Byte-wise zip comparison of equal-length lists finds no
difference exactly when the lists are equal. -/
theorem bytesDiffer_eq_false_iff :
    ∀ (l1 l2 : List Nat), l1.length = l2.length →
      (bytesDiffer l1 l2 = false ↔ l1 = l2) := by
  unfold bytesDiffer
  intro l1
  induction l1 with
  | nil =>
    intro l2 h
    cases l2 with
    | nil => simp
    | cons b t2 => simp at h
  | cons a t ih =>
    intro l2 h
    cases l2 with
    | nil => simp at h
    | cons b t2 =>
      have hlen : t.length = t2.length := by simp at h; omega
      simp only [List.zip_cons_cons, List.any_cons, Bool.or_eq_false_iff,
        decide_eq_false_iff_not, ne_eq, not_not, ih t2 hlen, List.cons.injEq]

/-- C10 (amended): the two detector implementations return the same
result for every input file whose 15-byte prefix is valid UTF-8 (in
particular for every actual SQLite database, whose prefix is the
ASCII signature); they can differ only when the prefix is not valid
UTF-8, where `src/util.rs` skips the signature comparison. -/
theorem detectors_agree (env : DetectEnv)
    (hutf8 : ∀ bs, env.fileBytes = some bs → 15 ≤ bs.length →
      (utf8Decode (bs.take 15)).isSome = true) :
    Funcs.cookie_db_type env = Util.cookie_db_type env := by
  unfold Funcs.cookie_db_type Funcs.cookie_db_run
    Util.cookie_db_type Util.cookie_db_run
  rcases hf : env.fileBytes with _ | bs
  · rfl
  · by_cases hlen : bs.length < 15
    · simp [hlen]
    · simp only [if_neg hlen]
      have h15 : 15 ≤ bs.length := by omega
      have hsome := hutf8 bs hf h15
      rcases hdec : utf8Decode (bs.take 15) with _ | cs
      · rw [hdec] at hsome
        simp at hsome
      · simp only [hdec]
        have htk : (bs.take 15).length = sqliteSig.length := by
          simp [List.length_take, sqliteSig]
          omega
        have hiff := bytesDiffer_eq_false_iff (bs.take 15) sqliteSig htk
        by_cases hcs : cs = sqliteSig
        · have hascii : ∀ c ∈ cs, c < 128 := by
            rw [hcs]
            decide
          have hbytes : bs.take 15 = sqliteSig := by
            rw [utf8Decode_ascii (bs.take 15) cs hdec hascii, hcs]
          have hany := hiff.mpr hbytes
          simp [hany, hcs]
        · have hbytes : bs.take 15 ≠ sqliteSig := by
            intro hcontra
            apply hcs
            rw [hcontra] at hdec
            have hsig : utf8Decode sqliteSig = some sqliteSig := rfl
            rw [hsig] at hdec
            exact (Option.some.inj hdec).symm
          have hany : bytesDiffer (bs.take 15) sqliteSig = true := by
            rcases hb : bytesDiffer (bs.take 15) sqliteSig with _ | _
            · exact absurd (hiff.mp hb) hbytes
            · rfl
          simp [hany, hcs]

/-- An environment whose file is a well-formed store: signature
prefix, database opens, `moz_cookies` probe succeeds. -/
def sigEnv : DetectEnv :=
  { fileBytes := some sqliteSig, dbOpens := true,
    hasMozCookies := true, hasCookies := false }

/-- Witness for C10 (amended) at a signature-prefixed store. -/
theorem detectors_agree_witness :
    Funcs.cookie_db_type sigEnv = Util.cookie_db_type sigEnv :=
  detectors_agree sigEnv (by
    intro bs hbs _
    have hbs2 : sqliteSig = bs := Option.some.inj hbs
    rw [← hbs2]
    rfl)

end Rokie
